import Mathlib

/-!
Shallow embedding of `build.rs` of the `tflitec-rs` crate (the crate's
build script), together with proofs about the claims of its specification.

The build script is straight-line effectful code.  We embed it as pure
Lean functions from an explicit environment (`Env`, the environment
variables and compile-time feature flags) and an oracle for the external
world (`World`, recording which downloads succeed, what the downloaded
archives contain, which external commands succeed, and which paths exist
on the file system) to a result `Res` carrying either a normal return or
a panic message, in both cases together with the ordered trace of
observable effects (`Event`) performed before returning or panicking.
-/

/-- Observable effect of the build script, in program order. -/
inductive Event where
  /-- An HTTP download attempt via curl (`download_file`). -/
  | netCall (url : String)
  /-- Spawning `git` with the given argument list (`prepare_tensorflow_source`). -/
  | gitClone (args : List String)
  /-- `std::fs::File::create`. -/
  | createFile (path : String)
  /-- `std::fs::remove_file`. -/
  | removeFile (path : String)
  /-- `std::fs::remove_dir_all`. -/
  | removeDirAll (path : String)
  /-- `std::fs::create_dir_all`. -/
  | createDirAll (path : String)
  /-- Spawning `unzip` on the bundled resource archive (`prepare_for_docsrs`). -/
  | runUnzip (zipPath destDir : String)
  /-- Unpacking one tar entry to a destination path (`download_ios`). -/
  | unpack (entryPath dest : String)
  /-- Writing bytes extracted from the ZIP archive to a file (`download_android`). -/
  | writeFile (path : String)
  /-- `copy_or_overwrite` from source to destination. -/
  | copyTo (src dest : String)
  /-- Running the bindgen builder over the given header files. -/
  | genBindings (headers : List String)
  /-- A `println!` cargo directive line. -/
  | directive (line : String)
  deriving DecidableEq, Repr

abbrev Trace := List Event

/-- Result of running a fragment of the build script: either a normal
return with a value, or a process abort (Rust `panic!` / `expect` /
`unwrap`), in both cases with the trace of effects already performed. -/
inductive Res (α : Type) where
  | ok (a : α) (tr : Trace)
  | panic (msg : String) (tr : Trace)
  deriving Repr

/-- Sequencing of build-script fragments: a panic short-circuits, and
traces accumulate in program order. -/
def Res.andThen {α β : Type} : Res α → (α → Res β) → Res β
  | .panic m t, _ => .panic m t
  | .ok a t, f =>
      match f a with
      | .panic m t2 => .panic m (t ++ t2)
      | .ok b t2 => .ok b (t ++ t2)

/-- Prepends already-performed effects to a result. -/
def Res.withPre {α : Type} (t0 : Trace) : Res α → Res α
  | .panic m t => .panic m (t0 ++ t)
  | .ok a t => .ok a (t0 ++ t)

/-- Trace of effects performed, whether the fragment returned or panicked. -/
def Res.trace {α : Type} : Res α → Trace
  | .ok _ t => t
  | .panic _ t => t

/-- Did the fragment return normally? -/
def Res.isOk {α : Type} : Res α → Bool
  | .ok _ _ => true
  | .panic _ _ => false

/-- Did the fragment abort the process? -/
def Res.isPanic {α : Type} : Res α → Bool
  | .ok _ _ => false
  | .panic _ _ => true

/-- Network activity: an HTTP download attempt or a `git clone` spawn. -/
def Event.isNetwork : Event → Bool
  | .netCall _ => true
  | .gitClone _ => true
  | _ => false

/-- Is this event an `unzip` spawn?  Used to observe whether the
documentation-build preparation ran. -/
def Event.isUnzip : Event → Bool
  | .runUnzip _ _ => true
  | _ => false

/-- Is this event the unpacking of a tar entry? -/
def Event.isUnpack : Event → Bool
  | .unpack _ _ => true
  | _ => false

/-- Environment of one build: environment variables as the build script
reads them, plus the compile-time cargo feature flags and cfg options
baked into the script. -/
structure Env where
  /-- `CARGO_CFG_TARGET_OS` -/
  targetOS : Option String
  /-- `CARGO_CFG_TARGET_ARCH` -/
  targetArch : Option String
  /-- `DOCS_RS` -/
  docsRs : Option String
  /-- `OUT_DIR` -/
  outDir : Option String
  /-- `CARGO_MANIFEST_DIR` -/
  manifestDir : Option String
  /-- cargo feature `flex_delegate` -/
  flexFeature : Bool
  /-- cargo feature `xnnpack` -/
  xnnpackFeature : Bool
  /-- the `android` cfg predicate of `cfg(all(android, feature = "flex_delegate"))` -/
  cfgAndroid : Bool

/-- Oracle for the external world: outcomes of network transfers and
external commands, contents of the downloaded archives (keyed by
download URL), and the relevant file-system state. -/
structure World where
  /-- Does the curl transfer from this URL run to completion? -/
  netOk : String → Bool
  /-- Exit of the spawned `git clone`: `none` if it cannot be executed,
  otherwise `some success`. -/
  gitStatus : Option Bool
  /-- Exit of the spawned `unzip`: `none` if it cannot be executed,
  otherwise `some success`. -/
  unzipStatus : Option Bool
  /-- Does `ZipArchive::new` succeed on the archive downloaded from this URL? -/
  zipOk : String → Bool
  /-- Entry names of the ZIP archive downloaded from this URL. -/
  zipEntries : String → List String
  /-- Does streaming the tar entries of the archive downloaded from this
  URL succeed? -/
  tarOk : String → Bool
  /-- Entry paths of the tar archive downloaded from this URL. -/
  tarEntries : String → List String
  /-- Does a path exist on the file system before the script runs? -/
  pathExists : String → Bool
  /-- Does a path exist after `unzip` of the bundled resource archive? -/
  postUnzipExists : String → Bool
  /-- Does `copy_or_overwrite` succeed? -/
  copyOk : Bool
  /-- Does the bindgen builder generate bindings successfully? -/
  bindgenOk : Bool

/-! ### Constants of the script -/

def TF_VER : String := "2.14.0"

def TAG : String := "v" ++ TF_VER

def TF_GIT_URL : String := "https://github.com/tensorflow/tensorflow.git"

def ANDROID_BIN_DOWNLOAD_URL : String :=
  "https://repo1.maven.org/maven2/org/tensorflow/tensorflow-lite/" ++ TF_VER ++
    "/tensorflow-lite-" ++ TF_VER ++ ".aar"

def ANDROID_BIN_FLEX_DOWNLOAD_URL : String :=
  "https://repo1.maven.org/maven2/org/tensorflow/tensorflow-lite-select-tf-ops/" ++ TF_VER ++
    "/tensorflow-lite-select-tf-ops-" ++ TF_VER ++ ".aar"

def IOS_BIN_DOWNLOAD_URL : String :=
  "https://dl.google.com/tflite-nightly/ios/prod/tensorflow/lite/release/ios/nightly/807/20230224-035015/TensorFlowLiteC/0.0.1-nightly.20230224/TensorFlowLiteC-0.0.1-nightly.20230224.tar.gz"

/-! ### Platform naming helpers

`target_os()` reads `CARGO_CFG_TARGET_OS` and panics when it is absent;
call sites below only reach these helpers once the OS string is known,
so the helpers are parameterised by the OS string. -/

/-- `dll_extension` of `build.rs`. -/
def dll_extension (os : String) : String :=
  if os = "macos" then "dylib"
  else if os = "windows" then "dll"
  else "so"

/-- `dll_prefix` of `build.rs`. -/
def dll_prefix (os : String) : String :=
  if os = "windows" then "" else "lib"

/-- `get_lib_name` of `build.rs`. -/
def get_lib_name (os : String) : String :=
  if os = "android" then dll_prefix os ++ "tensorflowlite_jni." ++ dll_extension os
  else if os = "ios" then "TensorFlowLiteC.framework"
  else dll_prefix os ++ "tensorflowlite_c." ++ dll_extension os

/-- `get_flex_name` of `build.rs`. -/
def get_flex_name (os : String) : String :=
  if os = "android" then dll_prefix os ++ "tensorflowlite_flex_jni." ++ dll_extension os
  else if os = "ios" then "TensorFlowLiteSelectTfOps.framework"
  else dll_prefix os ++ "tensorflowlite_flex." ++ dll_extension os

/-! ### download_file -/

/-- `download_file` of `build.rs`: creates the destination file, runs the
curl transfer, and on a transfer error removes the destination file and
panics.  (Failure of `File::create` itself is not modelled: it aborts
before any byte is written, leaving no partial file.) -/
def download_file (w : World) (url : String) (path : String) : Res Unit :=
  if w.netOk url then
    .ok () [.createFile path, .netCall url]
  else
    .panic ("Error occurred while downloading from " ++ url)
      [.createFile path, .netCall url, .removeFile path]

/-! ### download_android -/

/-- Architecture-to-ABI mapping of `download_android`: the `match` on
`CARGO_CFG_TARGET_ARCH`, with `none` for the panicking wildcard arm. -/
def androidAbi : String → Option String
  | "aarch64" => some "arm64-v8a"
  | "armv7" => some "armeabi-v7a"
  | "x86" => some "x86"
  | "x86_64" => some "x86_64"
  | _ => none

/-- `download_android` of `build.rs`: creates the save directory,
downloads the AAR, then reads and maps the target architecture, opens
the ZIP, locates the entry `jni/<abi>/<filename>` and writes its bytes
to `<save_path>/<filename>`. -/
def download_android (w : World) (env : Env) (url save_path filename : String) : Res Unit :=
  let aar_path := save_path ++ "/android_lib"
  Res.withPre [.createDirAll save_path] <|
    (download_file w url aar_path).andThen fun _ =>
      match env.targetArch with
      | none => .panic "Unable to get TARGET_ARCH" []
      | some arch =>
        match androidAbi arch with
        | none => .panic ("'" ++ arch ++ "' not supported") []
        | some abi =>
          if w.zipOk url then
            let archive_file_path := "jni/" ++ abi ++ "/" ++ filename
            if (w.zipEntries url).contains archive_file_path then
              .ok () [.writeFile (save_path ++ "/" ++ filename)]
            else
              .panic "No file found in the AAR" []
          else
            .panic "invalid Zip archive" []

/-! ### download_ios -/

/-- Architecture mapping of `download_ios`: the `match` on
`CARGO_CFG_TARGET_ARCH`, with `none` for the panicking wildcard arm. -/
def iosArch : String → Option String
  | "aarch64" => some "ios-arm64"
  | _ => none

/-- Does the character list `l` start with the character list `pat`? -/
def listStartsWith : List Char → List Char → Bool
  | [], _ => true
  | _ :: _, [] => false
  | a :: pat, b :: l => a == b && listStartsWith pat l

/-- Does the character list `l` contain `pat` as a contiguous run? -/
def listContainsRun (pat : List Char) : List Char → Bool
  | [] => listStartsWith pat []
  | b :: l => listStartsWith pat (b :: l) || listContainsRun pat l

/-- Rust `str::contains` with a string pattern: substring containment. -/
def strContainsSub (s pat : String) : Bool :=
  listContainsRun pat.toList s.toList

/-- Rust `str::starts_with`: used only to state claims about the
"prefix" wording of the specification; `download_ios` itself does not
use it. -/
def strStartsWith (s pat : String) : Bool :=
  listStartsWith pat.toList s.toList

/-- Splitting a character list at every occurrence of a separator
character, keeping empty pieces: the semantics of Rust `str::split`
with a one-character pattern. -/
def splitOnChar (sep : Char) : List Char → List (List Char)
  | [] => [[]]
  | c :: cs =>
      match splitOnChar sep cs, c == sep with
      | r, true => [] :: r
      | [], false => [[c]]
      | g :: gs, false => (c :: g) :: gs

/-- Rust `str::split` with a one-character pattern, as strings. -/
def strSplit (s : String) (sep : Char) : List String :=
  (splitOnChar sep s.toList).map String.mk

/-- Rust `[&str]::join("/")`. -/
def joinWithSlash : List String → String
  | [] => ""
  | [x] => x
  | x :: xs => x ++ "/" ++ joinWithSlash xs

/-- Path-component stripping of `download_ios`:
`file_path.split("/").skip(4).collect::<Vec<_>>().join("/")`. -/
def stripFourComponents (p : String) : String :=
  joinWithSlash ((strSplit p '/').drop 4)

/-- The string `download_ios` builds to select tar entries (its
spelling follows the source):
`format!("Frameworks/{framework_name}.xcframework/{arch}/{filename}/")`. -/
def arhive_filepath (framework_name archDir filename : String) : String :=
  "Frameworks/" ++ framework_name ++ ".xcframework/" ++ archDir ++ "/" ++ filename ++ "/"

/-- The leading component of `filename` before the first dot:
`filename.split(".").nth(0).unwrap()` (always defined, since splitting
returns at least one piece). -/
def framework_name_of (filename : String) : String :=
  (strSplit filename '.').headD ""

/-- Actions of the `archive.entries().for_each(...)` loop of
`download_ios`: each entry whose path contains `arhive_filepath` as a
substring is unpacked to `save_path` joined with its path minus the
first four components; other entries are skipped. -/
def iosEntryActions (save_path arhive_filepath : String) (entries : List String) : Trace :=
  (entries.filter (fun p => strContainsSub p arhive_filepath)).map
    (fun p => .unpack p (save_path ++ "/" ++ stripFourComponents p))

/-- `download_ios` of `build.rs`: creates the save directory, downloads
the tar.gz archive, then reads and maps the target architecture, builds
the string `Frameworks/<framework>.xcframework/<arch>/<filename>/`, and
streams the tar entries, unpacking the ones whose path contains that
string. -/
def download_ios (w : World) (env : Env) (url save_path filename : String) : Res Unit :=
  let framework_name := framework_name_of filename
  let archive_path := save_path ++ "/" ++ framework_name ++ ".tar.gz"
  Res.withPre [.createDirAll save_path] <|
    (download_file w url archive_path).andThen fun _ =>
      match env.targetArch with
      | none => .panic "Unable to get TARGET_ARCH" []
      | some arch =>
        match iosArch arch with
        | none => .panic ("'" ++ arch ++ "' not supported") []
        | some archDir =>
          if w.tarOk url then
            .ok () (iosEntryActions save_path
              (arhive_filepath framework_name archDir filename) (w.tarEntries url))
          else
            .panic "invalid tar archive" []

/-! ### prepare_tensorflow_source -/

/-- Argument list of the `git` invocation of `prepare_tensorflow_source`. -/
def gitCloneArgs (tf_src_path : String) : List String :=
  ["clone", "--depth", "1", "--shallow-submodules", "--branch", TAG,
    "--single-branch", TF_GIT_URL, tf_src_path]

/-- `prepare_tensorflow_source` of `build.rs`: when the clone-completion
marker `.complete_clone` exists the function does nothing; otherwise it
deletes any existing source directory, spawns `git clone` (shallow,
single branch, pinned tag), panics when the spawn fails or the clone
exits unsuccessfully, and finally creates the marker file. -/
def prepare_tensorflow_source (w : World) (tf_src_path : String) : Res Unit :=
  let complete_clone_hint_file := tf_src_path ++ "/.complete_clone"
  if w.pathExists complete_clone_hint_file then
    .ok () []
  else
    let cleanup : Trace :=
      if w.pathExists tf_src_path then [.removeDirAll tf_src_path] else []
    let pre := cleanup ++ [.gitClone (gitCloneArgs tf_src_path)]
    match w.gitStatus with
    | none => .panic "Cannot execute `git clone`" pre
    | some false => .panic "git clone failed" pre
    | some true => .ok () (pre ++ [.createFile complete_clone_hint_file])

/-! ### prepare_for_docsrs -/

/-- `prepare_for_docsrs` of `build.rs`: unpacks the bundled resource
archive `build-res/docsrs_res.zip` into the output directory and panics
unless `unzip` succeeded and both `libtensorflowlite_c.so` and
`bindings.rs` exist there afterwards. -/
def prepare_for_docsrs (w : World) (env : Env) : Res Unit :=
  match env.outDir with
  | none => .panic "environment variable not found" []
  | some od =>
    let library_path := od ++ "/libtensorflowlite_c.so"
    let bindings_path := od ++ "/bindings.rs"
    match env.manifestDir with
    | none => .panic "environment variable not found" []
    | some root =>
      let pre : Trace := [.runUnzip (root ++ "/build-res/docsrs_res.zip") od]
      match w.unzipStatus with
      | none => .panic "Cannot execute unzip" pre
      | some st =>
        if st && w.postUnzipExists library_path && w.postUnzipExists bindings_path then
          .ok () pre
        else
          .panic "Cannot extract docs.rs resources" pre

/-! ### binding generation -/

/-- `generate_binding_ios` of `build.rs`: runs bindgen over the headers
found inside the extracted framework bundle and writes `bindings.rs`. -/
def generate_binding_ios (w : World) (env : Env) (od : String) : Res Unit :=
  let headers_path := od ++ "/TensorFlowLiteC.framework/Headers"
  let headers :=
    [headers_path ++ "/c_api.h"] ++
      (if env.xnnpackFeature then [headers_path ++ "/xnnpack_delegate.h"] else [])
  if w.bindgenOk then
    .ok () [.genBindings headers, .writeFile (od ++ "/bindings.rs")]
  else
    .panic "Unable to generate bindings" [.genBindings headers]

/-- `generate_bindings` of `build.rs`: runs bindgen over the headers of
the cloned source tree and writes `bindings.rs`. -/
def generate_bindings (w : World) (env : Env) (od tf_src_path : String) : Res Unit :=
  let headers :=
    [tf_src_path ++ "/tensorflow/lite/c/c_api.h"] ++
      (if env.xnnpackFeature
        then [tf_src_path ++ "/tensorflow/lite/delegates/xnnpack/xnnpack_delegate.h"]
        else [])
  if w.bindgenOk then
    .ok () [.genBindings headers, .writeFile (od ++ "/bindings.rs")]
  else
    .panic "Unable to generate bindings" [.genBindings headers]

/-! ### download_and_install -/

/-- `copy_or_overwrite` of `build.rs`, abstracted to one copy effect
(the remove-then-copy detail of the destination is not needed by any
claim); a copy failure panics. -/
def copy_or_overwrite (w : World) (src dest : String) : Res Unit :=
  if w.copyOk then
    .ok () [.copyTo src dest]
  else
    .panic ("Cannot copy from " ++ src ++ " to " ++ dest) [.copyTo src dest]

/-- `download_and_install` of `build.rs`: dispatches on the target OS to
the Android or iOS fetch (downloading the flex AAR as well when the
`flex_delegate` feature is on), panics on any other OS, and copies the
fetched library to the output directory. -/
def download_and_install (w : World) (env : Env) (os od tf_src_path : String) : Res Unit :=
  let libname := get_lib_name os
  let flexname := get_flex_name os
  let save_path := tf_src_path ++ "/pkgs"
  let fetch : Res Unit :=
    if os = "android" then
      (download_android w env ANDROID_BIN_DOWNLOAD_URL save_path libname).andThen fun _ =>
        if env.flexFeature then
          download_android w env ANDROID_BIN_FLEX_DOWNLOAD_URL save_path flexname
        else
          .ok () []
    else if os = "ios" then
      download_ios w env IOS_BIN_DOWNLOAD_URL save_path libname
    else
      .panic "Only iOS and Android are supported for now" []
  fetch.andThen fun _ =>
    (copy_or_overwrite w (save_path ++ "/" ++ libname) (od ++ "/" ++ libname)).andThen fun _ =>
      if env.cfgAndroid && env.flexFeature then
        copy_or_overwrite w (save_path ++ "/" ++ flexname) (od ++ "/" ++ flexname)
      else
        .ok () []

/-! ### main -/

/-- Linker-directive lines of the leading `match` of `main`: `some`
lines for the two supported target OSes, `none` for the panicking
wildcard arm. -/
def linkDirectives (os od : String) : Option Trace :=
  if os = "android" then
    some [.directive ("cargo:rustc-link-search=native=" ++ od),
      .directive "cargo:rustc-link-lib=dylib=tensorflowlite_jni"]
  else if os = "ios" then
    some [.directive ("cargo:rustc-link-search=framework=" ++ od),
      .directive "cargo:rustc-link-lib=framework=TensorFlowLiteC",
      .directive "cargo:rustc-link-lib=c++"]
  else
    none

/-- `main` of `build.rs` (named `build_main` here since `main` is reserved): reads `OUT_DIR` and the target OS, emits the
linker directives (panicking on an unsupported OS), then either runs the
documentation-build preparation (when `DOCS_RS` equals `"1"`) or the
full path: source clone, binary download and install, and binding
generation (the clone being skipped on iOS). -/
def build_main (w : World) (env : Env) : Res Unit :=
  match env.outDir with
  | none => .panic "environment variable not found" []
  | some od =>
    match env.targetOS with
    | none => .panic "Unable to get TARGET_OS" []
    | some os =>
      match linkDirectives os od with
      | none => .panic "Only iOS and Android are supported for now" []
      | some t0 =>
        Res.withPre t0 <|
          if env.docsRs = some "1" then
            prepare_for_docsrs w env
          else
            let tf_src_path := od ++ "/tensorflow_" ++ TAG
            if os ≠ "ios" then
              (prepare_tensorflow_source w tf_src_path).andThen fun _ =>
                (download_and_install w env os od tf_src_path).andThen fun _ =>
                  generate_bindings w env od tf_src_path
            else
              (download_and_install w env os od tf_src_path).andThen fun _ =>
                generate_binding_ios w env od

/-! ### File-system semantics of a trace -/

/-- Effect of one event on file existence at a path. -/
def applyEvent (fs : String → Bool) : Event → (String → Bool)
  | .createFile p => fun q => if q = p then true else fs q
  | .writeFile p => fun q => if q = p then true else fs q
  | .removeFile p => fun q => if q = p then false else fs q
  | .removeDirAll p => fun q => if q = p then false else fs q
  | _ => fs

/-- Effect of a trace on file existence, in program order. -/
def applyTrace (fs : String → Bool) (tr : Trace) : String → Bool :=
  tr.foldl applyEvent fs

/-! ### Basic lemmas about `Res` -/

@[simp]
lemma Res.trace_ok {α : Type} (a : α) (t : Trace) : (Res.ok a t).trace = t := rfl

@[simp]
lemma Res.trace_panic {α : Type} (m : String) (t : Trace) : (Res.panic (α := α) m t).trace = t := rfl

@[simp]
lemma Res.trace_withPre {α : Type} (t0 : Trace) (r : Res α) :
    (Res.withPre t0 r).trace = t0 ++ r.trace := by
  cases r <;> rfl

@[simp]
lemma Res.isOk_withPre {α : Type} (t0 : Trace) (r : Res α) :
    (Res.withPre t0 r).isOk = r.isOk := by
  cases r <;> rfl

@[simp]
lemma Res.isPanic_withPre {α : Type} (t0 : Trace) (r : Res α) :
    (Res.withPre t0 r).isPanic = r.isPanic := by
  cases r <;> rfl

@[simp]
lemma Res.andThen_ok {α β : Type} (a : α) (t : Trace) (f : α → Res β) :
    (Res.ok a t).andThen f = Res.withPre t (f a) := by
  cases h : f a <;> simp [Res.andThen, Res.withPre, h]

@[simp]
lemma Res.andThen_panic {α β : Type} (m : String) (t : Trace) (f : α → Res β) :
    (Res.panic m t).andThen f = Res.panic m t := rfl

@[simp]
lemma Res.isPanic_ok {α : Type} (a : α) (t : Trace) : (Res.ok a t).isPanic = false := rfl

@[simp]
lemma Res.isPanic_panic {α : Type} (m : String) (t : Trace) :
    (Res.panic (α := α) m t).isPanic = true := rfl

@[simp]
lemma Res.isOk_ok {α : Type} (a : α) (t : Trace) : (Res.ok a t).isOk = true := rfl

@[simp]
lemma Res.isOk_panic {α : Type} (m : String) (t : Trace) :
    (Res.panic (α := α) m t).isOk = false := rfl

lemma Res.trace_andThen_sub {α β : Type} (r : Res α) (f : α → Res β) (e : Event)
    (h : e ∈ r.trace) : e ∈ (r.andThen f).trace := by
  cases r with
  | ok a t => cases hf : f a <;> simp_all [Res.andThen, Res.trace]
  | panic m t => simpa [Res.andThen, Res.trace] using h

/-! ### Concrete environments and worlds used to exercise the model -/

/-- Environment of a plain Android release build. -/
def baseEnv : Env :=
  { targetOS := some "android", targetArch := some "aarch64", docsRs := none,
    outDir := some "/out", manifestDir := some "/crate",
    flexFeature := false, xnnpackFeature := false, cfgAndroid := false }

/-- World where every external step succeeds, all archives contain the
Android library entry, the tar archive is empty, and no path exists yet. -/
def allOkWorld : World :=
  { netOk := fun _ => true, gitStatus := some true, unzipStatus := some true,
    zipOk := fun _ => true,
    zipEntries := fun _ => ["jni/arm64-v8a/libtensorflowlite_jni.so"],
    tarOk := fun _ => true, tarEntries := fun _ => [],
    pathExists := fun _ => false, postUnzipExists := fun _ => true,
    copyOk := true, bindgenOk := true }

/-! ### Claim C4: download-failure cleanup -/

/-- Claim C4: a download invocation that fails with a network/transfer
error removes the partially written destination file before panicking,
so after the trace no file remains at the destination path, whatever
was there before. -/
theorem download_failure_cleanup (w : World) (url path : String)
    (h : w.netOk url = false) :
    (download_file w url path).isPanic = true ∧
    (download_file w url path).trace =
      [.createFile path, .netCall url, .removeFile path] ∧
    ∀ fs : String → Bool, applyTrace fs (download_file w url path).trace path = false := by
  refine ⟨?_, ?_, ?_⟩ <;> simp [download_file, h, applyTrace, applyEvent]

/-- Witness for the download-failure cleanup theorem at a concrete
world where every transfer fails. -/
theorem download_failure_cleanup_witness :
    (download_file { allOkWorld with netOk := fun _ => false } "u" "/p").isPanic = true ∧
    applyTrace (fun _ => true)
      (download_file { allOkWorld with netOk := fun _ => false } "u" "/p").trace "/p" = false := by
  have h := download_failure_cleanup { allOkWorld with netOk := fun _ => false } "u" "/p" rfl
  exact ⟨h.1, h.2.2 (fun _ => true)⟩

/-! ### Claim C5: idempotent source fetch -/

/-- Claim C5: the source-fetch step is idempotent.  With the
clone-completion marker present it performs no effects at all, in
particular no network activity; with the marker absent it invokes a
shallow, single-branch, pinned-tag `git clone` (deleting a pre-existing
partial source directory first) and panics whenever the clone does not
exit successfully. -/
theorem source_fetch_idempotent (w : World) (p : String) :
    (w.pathExists (p ++ "/.complete_clone") = true →
      prepare_tensorflow_source w p = .ok () []) ∧
    (w.pathExists (p ++ "/.complete_clone") = false →
      Event.gitClone (gitCloneArgs p) ∈ (prepare_tensorflow_source w p).trace ∧
      gitCloneArgs p = ["clone", "--depth", "1", "--shallow-submodules", "--branch",
        "v" ++ TF_VER, "--single-branch", TF_GIT_URL, p] ∧
      (w.pathExists p = true →
        (prepare_tensorflow_source w p).trace.head? = some (.removeDirAll p)) ∧
      (w.gitStatus ≠ some true → (prepare_tensorflow_source w p).isPanic = true)) := by
  constructor
  · intro h; simp [prepare_tensorflow_source, h]
  · intro h
    refine ⟨?_, rfl, ?_, ?_⟩
    · rcases hgs : w.gitStatus with _ | b
      · simp [prepare_tensorflow_source, h, hgs]
      · cases b <;> simp [prepare_tensorflow_source, h, hgs]
    · intro hp
      rcases hgs : w.gitStatus with _ | b
      · simp [prepare_tensorflow_source, h, hgs, hp]
      · cases b <;> simp [prepare_tensorflow_source, h, hgs, hp]
    · intro hg
      rcases hgs : w.gitStatus with _ | b
      · simp [prepare_tensorflow_source, h, hgs]
      · cases b
        · simp [prepare_tensorflow_source, h, hgs]
        · exact absurd hgs hg

/-- Witness for the source-fetch idempotence theorem: with the marker
present nothing happens, and with the marker absent a failing clone
panics. -/
theorem source_fetch_idempotent_witness :
    prepare_tensorflow_source { allOkWorld with pathExists := fun _ => true } "/src" =
      .ok () [] ∧
    (prepare_tensorflow_source { allOkWorld with gitStatus := some false } "/src").isPanic =
      true := by
  refine ⟨(source_fetch_idempotent { allOkWorld with pathExists := fun _ => true } "/src").1 rfl,
    ((source_fetch_idempotent { allOkWorld with gitStatus := some false } "/src").2 rfl).2.2.2
      (by decide)⟩

/-! ### Claim C6: Android in-archive entry path -/

/-- Claim C6: on the Android path, for each supported pair of target
architecture and ABI — aarch64 ↦ arm64-v8a, armv7 ↦ armeabi-v7a,
x86 ↦ x86, x86_64 ↦ x86_64 — the fetch locates exactly the ZIP entry
`jni/<abi>/<filename>`: with download and archive parsing succeeding, it
returns normally precisely when that entry is present. -/
theorem android_entry_path (w : World) (env : Env)
    (url save_path filename arch abi : String)
    (hmap : (arch, abi) ∈ [("aarch64", "arm64-v8a"), ("armv7", "armeabi-v7a"),
      ("x86", "x86"), ("x86_64", "x86_64")])
    (harch : env.targetArch = some arch)
    (hnet : w.netOk url = true) (hzip : w.zipOk url = true) :
    (download_android w env url save_path filename).isOk =
      (w.zipEntries url).contains ("jni/" ++ abi ++ "/" ++ filename) := by
  have habi : androidAbi arch = some abi := by
    simp only [List.mem_cons, List.not_mem_nil, or_false] at hmap
    rcases hmap with h | h | h | h <;>
      (rw [Prod.ext_iff] at h; obtain ⟨rfl, rfl⟩ := h) <;> rfl
  by_cases hm : ("jni/" ++ abi ++ "/" ++ filename) ∈ w.zipEntries url <;>
    simp [download_android, download_file, hnet, harch, habi, hzip, hm]

/-- Witness for the Android entry-path theorem: with arch aarch64 and a
ZIP holding `jni/arm64-v8a/libtensorflowlite_jni.so`, the fetch
succeeds. -/
theorem android_entry_path_witness :
    (download_android allOkWorld baseEnv ANDROID_BIN_DOWNLOAD_URL "/save"
      "libtensorflowlite_jni.so").isOk = true := by
  have h := android_entry_path allOkWorld baseEnv ANDROID_BIN_DOWNLOAD_URL "/save"
    "libtensorflowlite_jni.so" "aarch64" "arm64-v8a" (by decide) rfl rfl rfl
  rw [h]; decide

/-! ### Claim C7: missing Android entry is fatal -/

/-- Claim C7: on the Android path, with a supported architecture and a
completed download, a malformed ZIP archive panics, and a well-formed
archive lacking the entry `jni/<abi>/<filename>` panics without writing
any output file: the fetch never continues past a missing entry. -/
theorem android_missing_entry_fatal (w : World) (env : Env)
    (url save_path filename arch abi : String)
    (harch : env.targetArch = some arch) (habi : androidAbi arch = some abi)
    (hnet : w.netOk url = true) :
    (w.zipOk url = false → (download_android w env url save_path filename).isPanic = true) ∧
    (w.zipOk url = true →
      (w.zipEntries url).contains ("jni/" ++ abi ++ "/" ++ filename) = false →
      (download_android w env url save_path filename).isPanic = true ∧
      ∀ q, Event.writeFile q ∉ (download_android w env url save_path filename).trace) := by
  constructor
  · intro hz
    simp [download_android, download_file, hnet, harch, habi, hz]
  · intro hz hc
    have hm : ("jni/" ++ abi ++ "/" ++ filename) ∉ w.zipEntries url := by
      simpa using hc
    constructor
    · simp [download_android, download_file, hnet, harch, habi, hz, hm]
    · intro q
      simp [download_android, download_file, hnet, harch, habi, hz, hm, Res.withPre]

/-- Witness for the missing-Android-entry theorem: an empty (but
well-formed) ZIP makes the fetch panic. -/
theorem android_missing_entry_fatal_witness :
    (download_android { allOkWorld with zipEntries := fun _ => [] } baseEnv
      ANDROID_BIN_DOWNLOAD_URL "/save" "libtensorflowlite_jni.so").isPanic = true :=
  ((android_missing_entry_fatal { allOkWorld with zipEntries := fun _ => [] } baseEnv
    ANDROID_BIN_DOWNLOAD_URL "/save" "libtensorflowlite_jni.so" "aarch64" "arm64-v8a"
    rfl rfl rfl).2 rfl rfl).1

/-! ### iOS extraction lemmas -/

/-- Membership of an unpack effect in the iOS entry loop: entry `p` is
unpacked, and to exactly `save/<p minus four leading components>`,
precisely when `p` is an entry whose path contains the constructed
string. -/
lemma unpack_mem_iosEntryActions (save c : String) (entries : List String) (p d : String) :
    Event.unpack p d ∈ iosEntryActions save c entries ↔
      p ∈ entries ∧ strContainsSub p c = true ∧ d = save ++ "/" ++ stripFourComponents p := by
  simp only [iosEntryActions, List.mem_map, List.mem_filter, Event.unpack.injEq]
  constructor
  · rintro ⟨a, ⟨ha, hc⟩, rfl, rfl⟩
    exact ⟨ha, hc, rfl⟩
  · rintro ⟨hp, hc, rfl⟩
    exact ⟨p, ⟨hp, hc⟩, rfl, rfl⟩

/-- Under a successful download and tar stream, with architecture
aarch64, `download_ios` returns normally and its trace is the fixed
preamble followed by the unpack effects of the entry loop. -/
lemma download_ios_eq (w : World) (env : Env) (url save_path filename : String)
    (harch : env.targetArch = some "aarch64")
    (hnet : w.netOk url = true) (htar : w.tarOk url = true) :
    download_ios w env url save_path filename =
      .ok () ([.createDirAll save_path,
        .createFile (save_path ++ "/" ++ framework_name_of filename ++ ".tar.gz"),
        .netCall url] ++
        iosEntryActions save_path
          (arhive_filepath (framework_name_of filename) "ios-arm64" filename)
          (w.tarEntries url)) := by
  simp [download_ios, download_file, hnet, harch, htar, iosArch, Res.withPre]

/-! ### Claim C8: silent no-op extraction on iOS -/

/-- Claim C8: on the iOS path, when no tar entry contains the
constructed string, the extraction step returns normally having
unpacked nothing: a silent no-op with no validation that anything
matched. -/
theorem ios_no_match_silent (w : World) (env : Env) (url save_path filename : String)
    (harch : env.targetArch = some "aarch64")
    (hnet : w.netOk url = true) (htar : w.tarOk url = true)
    (hnone : ∀ p ∈ w.tarEntries url,
      strContainsSub p (arhive_filepath (framework_name_of filename) "ios-arm64" filename) =
        false) :
    (download_ios w env url save_path filename).isOk = true ∧
    (download_ios w env url save_path filename).trace.any Event.isUnpack = false := by
  have hfilter : (w.tarEntries url).filter
      (fun p =>
        strContainsSub p (arhive_filepath (framework_name_of filename) "ios-arm64" filename)) =
      [] := by
    rw [List.filter_eq_nil_iff]
    intro p hp
    simp [hnone p hp]
  rw [download_ios_eq w env url save_path filename harch hnet htar]
  simp [iosEntryActions, hfilter, Event.isUnpack]

/-- Witness for the silent-no-op theorem: an empty tar archive is
extracted without error and without unpacking anything. -/
theorem ios_no_match_silent_witness :
    (download_ios allOkWorld baseEnv IOS_BIN_DOWNLOAD_URL "/save"
      "TensorFlowLiteC.framework").isOk = true ∧
    (download_ios allOkWorld baseEnv IOS_BIN_DOWNLOAD_URL "/save"
      "TensorFlowLiteC.framework").trace.any Event.isUnpack = false :=
  ios_no_match_silent allOkWorld baseEnv IOS_BIN_DOWNLOAD_URL "/save"
    "TensorFlowLiteC.framework" rfl rfl rfl
    (fun p hp => absurd hp (List.not_mem_nil p))

/-! ### Claim C3: iOS extraction condition -/

/-- World whose iOS tar archive holds one entry that contains the
constructed string only in the middle of its path, not at the start. -/
def iosWorldMid : World :=
  { allOkWorld with tarEntries := fun _ =>
      ["X/Frameworks/TensorFlowLiteC.xcframework/ios-arm64/TensorFlowLiteC.framework/lib"] }

/-- Counterexample to claim C3 as stated: this tar entry does not start
with the constructed string `Frameworks/<framework>.xcframework/<arch>/<filename>/`
(so it does not match it as a path prefix), yet `download_ios` extracts
it — the code tests substring containment, not a prefix match. -/
theorem ios_entry_midpath_extracted :
    strStartsWith
      "X/Frameworks/TensorFlowLiteC.xcframework/ios-arm64/TensorFlowLiteC.framework/lib"
      (arhive_filepath "TensorFlowLiteC" "ios-arm64" "TensorFlowLiteC.framework") = false ∧
    Event.unpack
      "X/Frameworks/TensorFlowLiteC.xcframework/ios-arm64/TensorFlowLiteC.framework/lib"
      "/save/TensorFlowLiteC.framework/lib" ∈
      (download_ios iosWorldMid baseEnv IOS_BIN_DOWNLOAD_URL "/save"
        "TensorFlowLiteC.framework").trace := by
  constructor
  · decide
  · decide

/-- Claim C3 amended: on the iOS path (architecture aarch64, download
and tar stream succeeding), a tar entry is extracted beneath the
destination directory — at the entry's path minus its first four
components — exactly when the entry's path CONTAINS the constructed
string `Frameworks/<framework>.xcframework/ios-arm64/<filename>/` as a
substring (not necessarily as a path prefix). -/
theorem ios_extraction_characterisation (w : World) (env : Env)
    (url save_path filename p : String)
    (harch : env.targetArch = some "aarch64")
    (hnet : w.netOk url = true) (htar : w.tarOk url = true)
    (hp : p ∈ w.tarEntries url) :
    ((∃ d, Event.unpack p d ∈ (download_ios w env url save_path filename).trace) ↔
      strContainsSub p
        (arhive_filepath (framework_name_of filename) "ios-arm64" filename) = true) ∧
    (strContainsSub p
        (arhive_filepath (framework_name_of filename) "ios-arm64" filename) = true →
      Event.unpack p (save_path ++ "/" ++ stripFourComponents p) ∈
        (download_ios w env url save_path filename).trace) := by
  rw [download_ios_eq w env url save_path filename harch hnet htar]
  constructor
  · constructor
    · rintro ⟨d, hd⟩
      simp only [Res.trace_ok, List.cons_append, List.nil_append, List.mem_cons] at hd
      rcases hd with h | h | h | h
      · exact Event.noConfusion h
      · exact Event.noConfusion h
      · exact Event.noConfusion h
      · exact ((unpack_mem_iosEntryActions save_path _ _ p d).mp h).2.1
    · intro hc
      refine ⟨save_path ++ "/" ++ stripFourComponents p, ?_⟩
      simp only [Res.trace_ok, List.mem_append]
      exact Or.inr ((unpack_mem_iosEntryActions save_path _ _ p _).mpr ⟨hp, hc, rfl⟩)
  · intro hc
    simp only [Res.trace_ok, List.mem_append]
    exact Or.inr ((unpack_mem_iosEntryActions save_path _ _ p _).mpr ⟨hp, hc, rfl⟩)

/-- World whose iOS tar archive holds one well-placed header entry. -/
def iosWorldMatch : World :=
  { allOkWorld with tarEntries := fun _ =>
      ["Frameworks/TensorFlowLiteC.xcframework/ios-arm64/TensorFlowLiteC.framework/Headers/c_api.h"] }

/-- Witness for the amended iOS extraction theorem: the matching header
entry is extracted to `/save/Headers/c_api.h`. -/
theorem ios_extraction_characterisation_witness :
    Event.unpack
      "Frameworks/TensorFlowLiteC.xcframework/ios-arm64/TensorFlowLiteC.framework/Headers/c_api.h"
      "/save/Headers/c_api.h" ∈
      (download_ios iosWorldMatch baseEnv IOS_BIN_DOWNLOAD_URL "/save"
        "TensorFlowLiteC.framework").trace := by
  have h := (ios_extraction_characterisation iosWorldMatch baseEnv IOS_BIN_DOWNLOAD_URL
    "/save" "TensorFlowLiteC.framework"
    "Frameworks/TensorFlowLiteC.xcframework/ios-arm64/TensorFlowLiteC.framework/Headers/c_api.h"
    rfl rfl rfl (by decide)).2 (by decide)
  have e : "/save" ++ "/" ++ stripFourComponents
      "Frameworks/TensorFlowLiteC.xcframework/ios-arm64/TensorFlowLiteC.framework/Headers/c_api.h" =
      "/save/Headers/c_api.h" := by decide
  exact e ▸ h

/-! ### Trace lemmas for the top-level pipeline -/

/-- The linker-directive preamble contains no network events. -/
lemma linkDirectives_no_network (os od : String) (t0 : Trace)
    (h : linkDirectives os od = some t0) : t0.any Event.isNetwork = false := by
  unfold linkDirectives at h
  split_ifs at h
  · injection h with h
    subst h
    simp [Event.isNetwork]
  · injection h with h
    subst h
    simp [Event.isNetwork]

/-- Characterisation of the documentation-build preparation once the
two environment variables and the unzip exit status are fixed. -/
lemma prepare_for_docsrs_eq (w : World) (env : Env) (od root : String)
    (ho : env.outDir = some od) (hm : env.manifestDir = some root) (st : Bool)
    (hu : w.unzipStatus = some st) :
    prepare_for_docsrs w env =
      if st && w.postUnzipExists (od ++ "/libtensorflowlite_c.so")
          && w.postUnzipExists (od ++ "/bindings.rs") then
        .ok () [.runUnzip (root ++ "/build-res/docsrs_res.zip") od]
      else
        .panic "Cannot extract docs.rs resources"
          [.runUnzip (root ++ "/build-res/docsrs_res.zip") od] := by
  simp [prepare_for_docsrs, ho, hm, hu]

/-- The documentation-build preparation performs no network activity,
whatever the environment and world. -/
lemma prepare_for_docsrs_no_network (w : World) (env : Env) :
    (prepare_for_docsrs w env).trace.any Event.isNetwork = false := by
  rcases ho : env.outDir with _ | od
  · simp [prepare_for_docsrs, ho]
  rcases hm : env.manifestDir with _ | root
  · simp [prepare_for_docsrs, ho, hm]
  rcases hu : w.unzipStatus with _ | st
  · simp [prepare_for_docsrs, ho, hm, hu, Event.isNetwork]
  rw [prepare_for_docsrs_eq w env od root ho hm st hu]
  split <;> simp [Event.isNetwork]

/-- Once `OUT_DIR` and `CARGO_MANIFEST_DIR` are present, the
documentation-build preparation always spawns `unzip`. -/
lemma runUnzip_mem_prepare_for_docsrs (w : World) (env : Env) (od root : String)
    (ho : env.outDir = some od) (hm : env.manifestDir = some root) :
    (prepare_for_docsrs w env).trace.any Event.isUnzip = true := by
  rcases hu : w.unzipStatus with _ | st
  · simp [prepare_for_docsrs, ho, hm, hu, Event.isUnzip]
  · rw [prepare_for_docsrs_eq w env od root ho hm st hu]
    split <;> simp [Event.isUnzip]

/-- The Android fetch attempts its download in every world: the network
call is always in its trace. -/
lemma netCall_mem_download_android_trace (w : World) (env : Env) (url s f : String) :
    Event.netCall url ∈ (download_android w env url s f).trace := by
  unfold download_android
  cases hnet : w.netOk url <;> simp [download_file, hnet]

/-- The iOS fetch attempts its download in every world: the network
call is always in its trace. -/
lemma netCall_mem_download_ios_trace (w : World) (env : Env) (url s f : String) :
    Event.netCall url ∈ (download_ios w env url s f).trace := by
  unfold download_ios
  cases hnet : w.netOk url <;> simp [download_file, hnet]

/-- On the Android arm, `download_and_install` always attempts the AAR
download. -/
lemma netCall_mem_download_and_install_android (w : World) (env : Env) (od tf : String) :
    Event.netCall ANDROID_BIN_DOWNLOAD_URL ∈
      (download_and_install w env "android" od tf).trace := by
  simp only [download_and_install]
  norm_num only
  exact Res.trace_andThen_sub _ _ _
    (Res.trace_andThen_sub _ _ _ (netCall_mem_download_android_trace _ _ _ _ _))

/-- On the iOS arm, `download_and_install` always attempts the archive
download. -/
lemma netCall_mem_download_and_install_ios (w : World) (env : Env) (od tf : String) :
    Event.netCall IOS_BIN_DOWNLOAD_URL ∈
      (download_and_install w env "ios" od tf).trace := by
  simp only [download_and_install]
  norm_num only
  exact Res.trace_andThen_sub _ _ _ (netCall_mem_download_ios_trace _ _ _ _ _)

/-- The full (non-docs) Android build path always performs network
activity: a `git clone` when the completion marker is absent, the AAR
download otherwise. -/
lemma network_path_android_any_network (w : World) (env : Env) (od tf : String) :
    ((prepare_tensorflow_source w tf).andThen fun _ =>
      (download_and_install w env "android" od tf).andThen fun _ =>
        generate_bindings w env od tf).trace.any Event.isNetwork = true := by
  by_cases hmark : w.pathExists (tf ++ "/.complete_clone") = true
  · have hP : prepare_tensorflow_source w tf = .ok () [] := by
      simp [prepare_tensorflow_source, hmark]
    rw [hP]
    simp only [Res.andThen_ok, Res.trace_withPre, List.nil_append]
    exact List.any_eq_true.mpr ⟨_,
      Res.trace_andThen_sub _ _ _ (netCall_mem_download_and_install_android w env od tf), rfl⟩
  · have hm : w.pathExists (tf ++ "/.complete_clone") = false := by
      simpa using hmark
    have hmem0 : Event.gitClone (gitCloneArgs tf) ∈ (prepare_tensorflow_source w tf).trace := by
      rcases hg : w.gitStatus with _ | b
      · cases hpe : w.pathExists tf <;> simp [prepare_tensorflow_source, hm, hg, hpe]
      · cases b <;> cases hpe : w.pathExists tf <;>
          simp [prepare_tensorflow_source, hm, hg, hpe]
    exact List.any_eq_true.mpr ⟨_, Res.trace_andThen_sub _ _ _ hmem0, rfl⟩

/-- The full (non-docs) iOS build path always performs network
activity: the archive download is attempted unconditionally. -/
lemma network_path_ios_any_network (w : World) (env : Env) (od tf : String) :
    ((download_and_install w env "ios" od tf).andThen fun _ =>
      generate_binding_ios w env od).trace.any Event.isNetwork = true :=
  List.any_eq_true.mpr ⟨_,
    Res.trace_andThen_sub _ _ _ (netCall_mem_download_and_install_ios w env od tf), rfl⟩

/-! ### Claim C9: documentation-build mode -/

/-- Claim C9: the documentation-build preparation performs no network
activity (and neither does the whole build when the docs flag is set),
and whenever it returns normally — rather than aborting — both the
shared library file and the bindings file exist in the output
directory, produced by unzipping the bundled resource archive. -/
theorem docsrs_no_network (w : World) (env : Env) :
    (prepare_for_docsrs w env).trace.any Event.isNetwork = false ∧
    ((prepare_for_docsrs w env).isOk = true →
      ∃ od, env.outDir = some od ∧
        w.postUnzipExists (od ++ "/libtensorflowlite_c.so") = true ∧
        w.postUnzipExists (od ++ "/bindings.rs") = true) ∧
    (env.docsRs = some "1" → (build_main w env).trace.any Event.isNetwork = false) := by
  refine ⟨prepare_for_docsrs_no_network w env, ?_, ?_⟩
  · intro hok
    rcases ho : env.outDir with _ | od
    · simp [prepare_for_docsrs, ho] at hok
    rcases hm : env.manifestDir with _ | root
    · simp [prepare_for_docsrs, ho, hm] at hok
    rcases hu : w.unzipStatus with _ | st
    · simp [prepare_for_docsrs, ho, hm, hu] at hok
    rw [prepare_for_docsrs_eq w env od root ho hm st hu] at hok
    split at hok
    · next hcond =>
      rw [Bool.and_eq_true, Bool.and_eq_true] at hcond
      exact ⟨od, rfl, hcond.1.2, hcond.2⟩
    · simp at hok
  · intro hd
    rcases ho : env.outDir with _ | od
    · simp [build_main, ho]
    rcases hos : env.targetOS with _ | os
    · simp [build_main, ho, hos]
    rcases hls : linkDirectives os od with _ | t0
    · simp [build_main, ho, hos, hls]
    · have h1 := linkDirectives_no_network os od t0 hls
      have h2 := prepare_for_docsrs_no_network w env
      simp [build_main, ho, hos, hls, hd, List.any_append, h1, h2]

/-- Witness for the documentation-build theorem: in a world where unzip
succeeds and leaves both files, the preparation reports both files. -/
theorem docsrs_no_network_witness :
    (prepare_for_docsrs allOkWorld baseEnv).trace.any Event.isNetwork = false ∧
    ∃ od, baseEnv.outDir = some od ∧
      allOkWorld.postUnzipExists (od ++ "/libtensorflowlite_c.so") = true ∧
      allOkWorld.postUnzipExists (od ++ "/bindings.rs") = true :=
  ⟨(docsrs_no_network allOkWorld baseEnv).1,
    (docsrs_no_network allOkWorld baseEnv).2.1 (by decide)⟩

/-! ### Claim C2: unsupported OS versus the docs flag -/

/-- Environment with the docs flag set but a desktop target OS. -/
def envC2 : Env := { baseEnv with targetOS := some "linux", docsRs := some "1" }

/-- Counterexample to claim C2 as stated: with the documentation-build
flag set to exactly "1" and target OS linux, the build still aborts and
the documentation-build preparation never runs (no unzip is spawned) —
the OS check of `main` precedes the docs-flag check. -/
theorem docs_flag_does_not_rescue_linux :
    (build_main allOkWorld envC2).isPanic = true ∧
    (build_main allOkWorld envC2).trace.any Event.isUnzip = false := by
  constructor
  · decide
  · decide

/-- Claim C2 amended: a target OS other than android and ios makes the
build abort regardless of the documentation-build flag, with an empty
effect trace — the preparation never runs there; for a supported target
OS with DOCS_RS = "1" (and the two directories present in the
environment) the documentation-build preparation does run. -/
theorem unsupported_os_abort (w : World) (env : Env) :
    (∀ os, env.targetOS = some os → os ≠ "android" → os ≠ "ios" →
      (build_main w env).isPanic = true ∧ (build_main w env).trace = []) ∧
    (∀ os od root, env.targetOS = some os → (os = "android" ∨ os = "ios") →
      env.outDir = some od → env.manifestDir = some root → env.docsRs = some "1" →
      (build_main w env).trace.any Event.isUnzip = true) := by
  constructor
  · intro os hos h1 h2
    rcases ho : env.outDir with _ | od
    · simp [build_main, ho]
    · have hld : linkDirectives os od = none := by simp [linkDirectives, h1, h2]
      simp [build_main, ho, hos, hld]
  · intro os od root hos hsupp ho hm hd
    have hun := runUnzip_mem_prepare_for_docsrs w env od root ho hm
    rcases hsupp with rfl | rfl <;>
      simp [build_main, ho, hos, hd, linkDirectives, List.any_append, hun]

/-- Witness for the amended unsupported-OS theorem: macos aborts with
an empty trace, and android with the docs flag runs the preparation. -/
theorem unsupported_os_abort_witness :
    (build_main allOkWorld { baseEnv with targetOS := some "macos" }).isPanic = true ∧
    (build_main allOkWorld { baseEnv with docsRs := some "1" }).trace.any
      Event.isUnzip = true :=
  ⟨((unsupported_os_abort allOkWorld { baseEnv with targetOS := some "macos" }).1
      "macos" rfl (by decide) (by decide)).1,
    (unsupported_os_abort allOkWorld { baseEnv with docsRs := some "1" }).2
      "android" "/out" "/crate" rfl (Or.inl rfl) rfl rfl rfl⟩

/-! ### Claim C10: the DOCS_RS branch condition -/

/-- Environment with the docs flag set but target OS windows. -/
def envC10 : Env := { baseEnv with targetOS := some "windows", docsRs := some "1" }

/-- Counterexample to claim C10 as stated: with DOCS_RS set to exactly
"1" but target OS windows, the documentation-build branch is not taken
(no unzip is spawned): the build aborts before the flag is examined —
and no network build path is taken either. -/
theorem docs_branch_not_reached_windows :
    (build_main allOkWorld envC10).trace.any Event.isUnzip = false ∧
    (build_main allOkWorld envC10).isPanic = true := by
  constructor
  · decide
  · decide

/-- Claim C10 amended: for a build that passes the OS gate (target OS
android or ios, `OUT_DIR` present), network activity occurs exactly
when DOCS_RS does not equal the exact string "1": under DOCS_RS = "1"
the documentation-build branch runs with no network activity, and under
every other value — or with the variable unset — the full build path
runs and always attempts a clone or download.  On any other target OS
the build aborts before either branch. -/
theorem docs_branch_iff (w : World) (env : Env) (os od : String)
    (ho : env.outDir = some od) (hos : env.targetOS = some os)
    (hsupp : os = "android" ∨ os = "ios") :
    (build_main w env).trace.any Event.isNetwork = true ↔ env.docsRs ≠ some "1" := by
  by_cases hd : env.docsRs = some "1"
  · have h2 := prepare_for_docsrs_no_network w env
    rcases hsupp with rfl | rfl <;>
      simp [build_main, ho, hos, hd, linkDirectives, List.any_append, h2, Event.isNetwork]
  · rcases hsupp with rfl | rfl
    · have hnet := network_path_android_any_network w env od (od ++ "/tensorflow_" ++ TAG)
      simp [build_main, ho, hos, hd, linkDirectives, List.any_append, hnet]
    · have hnet := network_path_ios_any_network w env od (od ++ "/tensorflow_" ++ TAG)
      simp [build_main, ho, hos, hd, linkDirectives, List.any_append, hnet]

/-- Witness for the amended DOCS_RS theorem: the plain android build
performs network activity, the docs android build performs none. -/
theorem docs_branch_iff_witness :
    (build_main allOkWorld baseEnv).trace.any Event.isNetwork = true ∧
    (build_main allOkWorld { baseEnv with docsRs := some "1" }).trace.any
      Event.isNetwork = false := by
  constructor
  · exact (docs_branch_iff allOkWorld baseEnv "android" "/out" rfl rfl
      (Or.inl rfl)).mpr (by decide)
  · have h := docs_branch_iff allOkWorld { baseEnv with docsRs := some "1" }
      "android" "/out" rfl rfl (Or.inl rfl)
    simpa using h

/-! ### Claim C1: fail-fast only for the OS, not the architecture -/

/-- Environment of an Android build with an unsupported architecture. -/
def envC1 : Env := { baseEnv with targetArch := some "mips" }

/-- Counterexample to claim C1 as stated: with target OS android
(supported) and target architecture mips (unsupported), the build
panics only after the AAR download was attempted and completed — the
network call appears in the abort trace, so termination does not
precede network activity for an unsupported architecture. -/
theorem unsupported_arch_reaches_download :
    (build_main allOkWorld envC1).isPanic = true ∧
    Event.netCall ANDROID_BIN_DOWNLOAD_URL ∈ (build_main allOkWorld envC1).trace := by
  constructor
  · decide
  · decide

/-- Claim C1 amended: an unsupported target OS aborts the build before
any effect at all — in particular before any network call — but an
unsupported target architecture does not fail fast: on both the Android
and the iOS paths the archive download is attempted, and with a working
network completes, before the architecture check panics. -/
theorem fail_fast_os_not_arch :
    (∀ w env os, env.targetOS = some os → os ≠ "android" → os ≠ "ios" →
      (build_main w env).isPanic = true ∧
      (build_main w env).trace.any Event.isNetwork = false) ∧
    (∀ w env url save_path filename arch, env.targetArch = some arch →
      androidAbi arch = none → w.netOk url = true →
      (download_android w env url save_path filename).isPanic = true ∧
      Event.netCall url ∈ (download_android w env url save_path filename).trace) ∧
    (∀ w env url save_path filename arch, env.targetArch = some arch →
      iosArch arch = none → w.netOk url = true →
      (download_ios w env url save_path filename).isPanic = true ∧
      Event.netCall url ∈ (download_ios w env url save_path filename).trace) := by
  refine ⟨?_, ?_, ?_⟩
  · intro w env os hos h1 h2
    rcases ho : env.outDir with _ | od
    · simp [build_main, ho]
    · have hld : linkDirectives os od = none := by simp [linkDirectives, h1, h2]
      simp [build_main, ho, hos, hld]
  · intro w env url save_path filename arch harch habi hnet
    constructor <;> simp [download_android, download_file, hnet, harch, habi]
  · intro w env url save_path filename arch harch habi hnet
    constructor <;> simp [download_ios, download_file, hnet, harch, habi]

/-- Witness for the amended fail-fast theorem: windows aborts silently;
the mips Android fetch and the x86_64 iOS fetch both panic (after their
download attempt). -/
theorem fail_fast_os_not_arch_witness :
    (build_main allOkWorld { baseEnv with targetOS := some "windows" }).isPanic = true ∧
    (download_android allOkWorld envC1 ANDROID_BIN_DOWNLOAD_URL "/s" "f.so").isPanic = true ∧
    (download_ios allOkWorld { baseEnv with targetArch := some "x86_64" }
      IOS_BIN_DOWNLOAD_URL "/s" "F.framework").isPanic = true :=
  ⟨(fail_fast_os_not_arch.1 allOkWorld { baseEnv with targetOS := some "windows" }
      "windows" rfl (by decide) (by decide)).1,
    (fail_fast_os_not_arch.2.1 allOkWorld envC1 ANDROID_BIN_DOWNLOAD_URL "/s" "f.so"
      "mips" rfl rfl rfl).1,
    (fail_fast_os_not_arch.2.2 allOkWorld { baseEnv with targetArch := some "x86_64" }
      IOS_BIN_DOWNLOAD_URL "/s" "F.framework" "x86_64" rfl rfl rfl).1⟩
